import Mathlib

/-!
Verification of `src/inputremapper/configs/mapping.py` (input-remapper).

The file shallowly embeds the mapping data model and its validation
pipeline: the permissive `UIMapping`, the strict `Mapping` whose
construction runs the pydantic validators, and the attribute-assignment
hook (`UIMapping.__setattr__`) with its combination-changed callback.

External collaborators that are not part of the source under `src/`
(the keyboard layout, the macro parser, the uinput capability check)
are modelled as an abstract environment `Env`; claims quantify over it.
-/

set_option maxHeartbeats 1600000

/-! ## Python string strip -/

/-- Model of Python `str.strip()` (used by `Mapping.validate_symbol`):
drop whitespace from both ends of the character list. -/
def pyStrip (s : String) : String :=
  ⟨(s.data.dropWhile Char.isWhitespace).rdropWhile Char.isWhitespace⟩

/-! ## evdev constants and keyboard-layout sentinel -/

def EV_KEY : Int := 1
def EV_REL : Int := 2
def EV_ABS : Int := 3

/-- Modelled from the spec: the designated "disabled" output sentinel
(`DISABLE_NAME` from `inputremapper.configs.keyboard_layout`, not under
`src/`); only its role as a distinguished symbol matters. -/
def DISABLE_NAME : String := "disable"

/-- The values of the `KnownUinput` enum in `mapping.py`. -/
def KNOWN_UINPUTS : List String := ["keyboard", "mouse", "gamepad", "keyboard + mouse"]

/-! ## Python truthiness helpers -/

/-- Python truthiness of an optional string (`None` and `""` are falsy). -/
def optStrTruthy : Option String → Bool
  | none => false
  | some s => s ≠ ""

/-- Python truthiness of an optional integer (`None` and `0` are falsy). -/
def optIntTruthy : Option Int → Bool
  | none => false
  | some n => n ≠ 0

/-! ## Input combinations -/

/-- One constituent descriptor of an input combination: event class,
event code and (for analog-to-button bindings) the trigger threshold.
Modelled from the spec: `InputConfig` lives in
`inputremapper/configs/input_config.py`, which is not under `src/`. -/
structure InputConfig where
  type : Int
  code : Int
  analog_threshold : Option Int
deriving DecidableEq, Repr

/-- Modelled from the spec (glossary): an analog-defining constituent
carries a continuously-varying axis value (`EV_ABS`/`EV_REL` event
class) rather than a binary press/release (a set, nonzero trigger
threshold makes it an analog-to-button binding). -/
def InputConfig.defines_analog_input (c : InputConfig) : Bool :=
  !(optIntTruthy c.analog_threshold) && (c.type == EV_ABS || c.type == EV_REL)

/-- An ordered sequence of input-event descriptors. Modelled from the
spec: `InputCombination` (external value type) supports equality and
iteration over its constituents. -/
structure InputCombination where
  events : List InputConfig
deriving DecidableEq, Repr

/-- Modelled from the spec: the first analog-defining constituent, if
any (`InputCombination.find_analog_input_config`). -/
def InputCombination.find_analog_input_config (c : InputCombination) : Option InputConfig :=
  c.events.find? (fun e => e.defines_analog_input)

/-! ## The shared field set of the three mapping tiers -/

/-- `MappingType` enum from `mapping.py`. -/
inductive MappingType where
  | KEY_MACRO
  | ANALOG
deriving DecidableEq, Repr

/-- The field set shared by `UIMapping`, `Mapping` and `MappingData`
(python floats are modelled as rationals). -/
structure MappingFields where
  input_combination : InputCombination
  target_uinput : Option String
  output_symbol : Option String
  output_type : Option Int
  output_code : Option Int
  name : Option String
  mapping_type : Option MappingType
  release_combination_keys : Bool
  macro_key_sleep_ms : Int
  deadzone : Rat
  gain : Rat
  expo : Rat
  rel_rate : Int
  rel_to_abs_input_cutoff : Int
  release_timeout : Rat
  force_release_timeout : Bool
deriving DecidableEq, Repr

/-! ## External collaborators -/

/-- The external collaborators of the core, at their interface boundary:
`keyboard_layout.get` (symbol resolution), `Parser.is_this_a_macro`,
`Parser.parse` success (as a deterministic predicate of the macro text),
and `GlobalUInputs.can_default_uinput_emit`. -/
structure Env where
  layout_get : String → Option Int
  is_this_a_macro_fn : String → Bool
  parse_ok : String → Bool
  can_default_uinput_emit : String → Int → Int → Bool

/-! ## UIMapping derived accessors -/

/-- `UIMapping.get_output_type_code`: the explicit pair if both set,
otherwise the symbol looked up in the keyboard layout (for non-macro,
non-empty symbols), otherwise `none`. The second component mirrors the
Python `Optional[int]` produced by `keyboard_layout.get`. -/
def get_output_type_code (env : Env) (f : MappingFields) : Option (Int × Option Int) :=
  match f.output_code, f.output_type with
  | some code, some t => some (t, some code)
  | _, _ =>
    match f.output_symbol with
    | some s =>
      if s = "" then none
      else if env.is_this_a_macro_fn s then none
      else some (EV_KEY, env.layout_get s)
    | none => none

/-! ## Validation error taxonomy

One constructor per structured error class from
`inputremapper/configs/validation_errors.py`, plus the pydantic-level
failures (invalid target enum value, numeric field constraint, and the
`assert` in `output_matches_input` firing when the combination field
was dropped after its own validators failed). -/

inductive VErr where
  | macroParse (symbol : String)
  | outputSymbolUnknown (symbol : String)
  | symbolNotAvailableInTarget (symbol : String) (target : String)
  | onlyOneAnalogInput (analog_events : List InputConfig)
  | triggerPointInRange (cfg : InputConfig)
  | invalidTarget (target : Option String)
  | numericConstraint (field : String)
  | outputSymbolVariant
  | macroButTypeOrCodeSet
  | symbolAndCodeMismatch (symbol : String) (code : Option Int)
  | wrongMappingTypeForKey
  | missingOutputAxis (analog_input_config : Option InputConfig) (output_type : Option Int)
  | missingMacroOrKey
  | assertionFailed
deriving DecidableEq, Repr

/-- `UIMapping.validate_mapping_type` (root validator): overrides the
mapping type when the output shape makes it obvious, otherwise keeps
the stored value.  The three `if` statements run in sequence on the
values dict. -/
def validate_mapping_type (f : MappingFields) : MappingFields :=
  let f1 := if f.output_type ≠ some EV_KEY ∧ f.output_code.isSome = true ∧ optStrTruthy f.output_symbol = false
    then { f with mapping_type := some MappingType.ANALOG } else f
  let f2 := if f1.output_type = none ∧ f1.output_code = none ∧ optStrTruthy f1.output_symbol = true
    then { f1 with mapping_type := some MappingType.KEY_MACRO } else f1
  if f2.output_type = some EV_KEY
    then { f2 with mapping_type := some MappingType.KEY_MACRO } else f2

/-! ## The `Mapping` validators -/

/-- `Mapping.validate_symbol` (pre root validator): the `""` check runs
on the raw value, then the symbol is stripped and written back, then
the disable sentinel, macro parse, layout lookup and target capability
checks run in order. -/
def validate_symbol (env : Env) (f : MappingFields) : Except VErr MappingFields :=
  match f.output_symbol with
  | none => .ok f
  | some s =>
    if s = "" then .ok { f with output_symbol := none }
    else
      let s' := pyStrip s
      let f' := { f with output_symbol := some s' }
      if s' = DISABLE_NAME then .ok f'
      else if env.is_this_a_macro_fn s' then
        if env.parse_ok s' then .ok f' else .error (.macroParse s')
      else
        match env.layout_get s' with
        | none => .error (.outputSymbolUnknown s')
        | some code =>
          match f.target_uinput with
          | none => .ok f'
          | some target =>
            if env.can_default_uinput_emit target EV_KEY code then .ok f'
            else .error (.symbolNotAvailableInTarget s' target)

/-- `Mapping.only_one_analog_input` (field validator on
`input_combination`). -/
def only_one_analog_input (c : InputCombination) : Except VErr InputCombination :=
  let analog_events := c.events.filter (fun e => e.defines_analog_input)
  if 1 < analog_events.length then .error (.onlyOneAnalogInput analog_events)
  else .ok c

/-- The per-constituent test of `Mapping.trigger_point_in_range`:
`EV_ABS` class, truthy threshold, magnitude at least 100. -/
def trigger_out_of_range (e : InputConfig) : Bool :=
  e.type == EV_ABS && optIntTruthy e.analog_threshold
    && decide (100 ≤ (e.analog_threshold.getD 0).natAbs)

/-- `Mapping.trigger_point_in_range` (field validator on
`input_combination`): raises on the first offending constituent. -/
def trigger_point_in_range (c : InputCombination) : Except VErr InputCombination :=
  match c.events.find? trigger_out_of_range with
  | some e => .error (.triggerPointInRange e)
  | none => .ok c

/-- The pydantic field-validation errors of the `input_combination`
field: `only_one_analog_input` then `trigger_point_in_range`, stopping
at the first failure. -/
def combination_field_errors (c : InputCombination) : List VErr :=
  match only_one_analog_input c with
  | .error e => [e]
  | .ok _ =>
    match trigger_point_in_range c with
    | .error e => [e]
    | .ok _ => []

/-- `Mapping` overrides `target_uinput : KnownUinput`: the value must be
one of the enum's values. -/
def target_field_errors (t : Option String) : List VErr :=
  match t with
  | some s => if s ∈ KNOWN_UINPUTS then [] else [.invalidTarget (some s)]
  | none => [.invalidTarget none]

/-- The pydantic constrained-field checks (`conint`, `confloat`,
`PositiveInt`, `PositiveFloat`), in field-definition order. -/
def numeric_field_errors (f : MappingFields) : List VErr :=
  (if f.macro_key_sleep_ms < 0 then [VErr.numericConstraint ("macro_key_sleep_ms")] else [])
  ++ (if f.deadzone < 0 ∨ 1 < f.deadzone then [VErr.numericConstraint ("deadzone")] else [])
  ++ (if f.expo < -1 ∨ 1 < f.expo then [VErr.numericConstraint ("expo")] else [])
  ++ (if f.rel_rate < 1 then [VErr.numericConstraint ("rel_rate")] else [])
  ++ (if f.rel_to_abs_input_cutoff < 1 then [VErr.numericConstraint ("rel_to_abs_input_cutoff")] else [])
  ++ (if f.release_timeout ≤ 0 then [VErr.numericConstraint ("release_timeout")] else [])

/-- `Mapping.validate_output_symbol_variant` (root validator): either a
symbol or both explicit type and code must be present. -/
def validate_output_symbol_variant (f : MappingFields) : Except VErr Unit :=
  if f.output_symbol = none ∧ (f.output_type = none ∨ f.output_code = none)
  then .error .outputSymbolVariant else .ok ()

/-- `Mapping.validate_output_integrity` (root validator): macros must
not come with explicit type/code; a plain symbol with explicit fields
must agree with its resolved code and use the key event class. -/
def validate_output_integrity (env : Env) (f : MappingFields) : Except VErr Unit :=
  match f.output_symbol with
  | none => .ok ()
  | some symbol =>
    if f.output_type = none ∧ f.output_code = none then .ok ()
    else if env.is_this_a_macro_fn symbol ∧ (f.output_type ≠ none ∨ f.output_code ≠ none)
      then .error .macroButTypeOrCodeSet
    else if (f.output_code ≠ none ∧ f.output_code ≠ env.layout_get symbol) ∨ f.output_type ≠ some EV_KEY
      then .error (.symbolAndCodeMismatch symbol f.output_code)
    else .ok ()

/-- `Mapping.output_matches_input` (root validator): axis-shaped output
iff analog-defining input.  `combination_present` models the `assert`
on `values.get("input_combination")`, which is missing exactly when the
combination's own field validators failed. -/
def output_matches_input (f : MappingFields) (combination_present : Bool) : Except VErr Unit :=
  if combination_present = false then .error .assertionFailed
  else
    let analog_input_config := f.input_combination.find_analog_input_config
    let defines_analog := analog_input_config.isSome
    let output_key_set := optStrTruthy f.output_symbol ||
      (f.output_type == some EV_KEY && optIntTruthy f.output_code)
    match f.mapping_type with
    | none => .ok ()
    | some mt =>
      if defines_analog = false ∧ mt ≠ MappingType.KEY_MACRO then .error .wrongMappingTypeForKey
      else if defines_analog = false ∧ output_key_set = false then .error .missingMacroOrKey
      else if defines_analog = true ∧ f.output_type ≠ some EV_ABS ∧ f.output_type ≠ some EV_REL
          ∧ f.output_symbol ≠ some DISABLE_NAME
        then .error (.missingOutputAxis analog_input_config f.output_type)
      else .ok ()

/-- The post root validators of `Mapping` in pydantic order
(`validate_mapping_type` inherited first, then the three `Mapping`
validators), stopping at the first raising validator; they run whether
or not field validation failed (`skip_on_failure` is unset). -/
def post_root_errors (env : Env) (f : MappingFields) (combination_present : Bool) :
    MappingFields × List VErr :=
  let f1 := validate_mapping_type f
  match validate_output_symbol_variant f1 with
  | .error e => (f1, [e])
  | .ok _ =>
    match validate_output_integrity env f1 with
    | .error e => (f1, [e])
    | .ok _ =>
      match output_matches_input f1 combination_present with
      | .error e => (f1, [e])
      | .ok _ => (f1, [])

/-- Construction of a validated `Mapping` from a field set: pydantic's
`validate_model` for the `Mapping` class.  A raising pre root validator
aborts immediately with only its error; otherwise field errors are
collected in field order, the post root validators run, and the model
is produced exactly when no error was recorded. -/
def mapping_construct (env : Env) (f0 : MappingFields) : Except (List VErr) MappingFields :=
  match validate_symbol env f0 with
  | .error e => .error [e]
  | .ok f =>
    let combiErrs := combination_field_errors f.input_combination
    let fieldErrs := combiErrs ++ target_field_errors f.target_uinput ++ numeric_field_errors f
    let post := post_root_errors env f combiErrs.isEmpty
    if fieldErrs ++ post.2 = [] then .ok post.1 else .error (fieldErrs ++ post.2)

/-- Construction of a permissive `UIMapping` (also `MappingData`, which
shares its validators) from well-typed field values: only the
constrained numeric fields and `validate_mapping_type` apply. -/
def uimapping_construct (f : MappingFields) : Except (List VErr) MappingFields :=
  if numeric_field_errors f = [] then .ok (validate_mapping_type f)
  else .error (numeric_field_errors f)

/-- `UIMapping.get_bus_message`: builds a `MappingData` from the
mapping's field values (`MappingData(**self.dict())`). -/
def get_bus_message (f : MappingFields) : Except (List VErr) MappingFields :=
  uimapping_construct f

/-! ## The UIMapping mutation hook (`__setattr__`) -/

/-- The combination-changed callback: invoked with the new and the old
combination; it signals rejection by raising (modelled as `Except.error`
with the raised exception's payload). -/
def CombinationChangedCallback := InputCombination → InputCombination → Except String Unit

/-- The mutable state of a `UIMapping` instance: its field values plus
the private `_combination_changed` callback slot. -/
structure UIMState where
  fields : MappingFields
  combination_changed : Option CombinationChangedCallback

/-- `UIMapping.set_combination_changed_callback`. -/
def set_combination_changed_callback (m : UIMState) (cb : CombinationChangedCallback) : UIMState :=
  { m with combination_changed := some cb }

/-- `UIMapping.remove_combination_changed_callback`. -/
def remove_combination_changed_callback (m : UIMState) : UIMState :=
  { m with combination_changed := none }

/-- One attribute assignment `self.<field> = value`, with a well-typed
right-hand side. -/
inductive FieldAssignment where
  | input_combination (v : InputCombination)
  | target_uinput (v : Option String)
  | output_symbol (v : Option String)
  | output_type (v : Option Int)
  | output_code (v : Option Int)
  | name (v : Option String)
  | mapping_type (v : Option MappingType)
  | release_combination_keys (v : Bool)
  | macro_key_sleep_ms (v : Int)
  | deadzone (v : Rat)
  | gain (v : Rat)
  | expo (v : Rat)
  | rel_rate (v : Int)
  | rel_to_abs_input_cutoff (v : Int)
  | release_timeout (v : Rat)
  | force_release_timeout (v : Bool)

/-- Whether the assignment targets the `input_combination` field. -/
def FieldAssignment.isInputCombination : FieldAssignment → Bool
  | .input_combination _ => true
  | _ => false

/-- Writing the assigned value into the field set. -/
def applyAssignment (f : MappingFields) : FieldAssignment → MappingFields
  | .input_combination v => { f with input_combination := v }
  | .target_uinput v => { f with target_uinput := v }
  | .output_symbol v => { f with output_symbol := v }
  | .output_type v => { f with output_type := v }
  | .output_code v => { f with output_code := v }
  | .name v => { f with name := v }
  | .mapping_type v => { f with mapping_type := v }
  | .release_combination_keys v => { f with release_combination_keys := v }
  | .macro_key_sleep_ms v => { f with macro_key_sleep_ms := v }
  | .deadzone v => { f with deadzone := v }
  | .gain v => { f with gain := v }
  | .expo v => { f with expo := v }
  | .rel_rate v => { f with rel_rate := v }
  | .rel_to_abs_input_cutoff v => { f with rel_to_abs_input_cutoff := v }
  | .release_timeout v => { f with release_timeout := v }
  | .force_release_timeout v => { f with force_release_timeout := v }

/-- The pydantic single-field check run by `validate_assignment` on the
assigned value (the constrained numeric fields; `UIMapping` has no
field validators of its own). -/
def assignmentError : FieldAssignment → Option VErr
  | .macro_key_sleep_ms v => if v < 0 then some (.numericConstraint ("macro_key_sleep_ms")) else none
  | .deadzone v => if v < 0 ∨ 1 < v then some (.numericConstraint ("deadzone")) else none
  | .expo v => if v < -1 ∨ 1 < v then some (.numericConstraint ("expo")) else none
  | .rel_rate v => if v < 1 then some (.numericConstraint ("rel_rate")) else none
  | .rel_to_abs_input_cutoff v => if v < 1 then some (.numericConstraint ("rel_to_abs_input_cutoff")) else none
  | .release_timeout v => if v ≤ 0 then some (.numericConstraint ("release_timeout")) else none
  | _ => none

/-- The outcome of an attribute assignment. -/
inductive SetattrError where
  | callbackRaised (e : String)
  | validationFailed (e : VErr)

/-- `BaseModel.__setattr__` under `validate_assignment = True` for the
`UIMapping` class: validate the single assigned value, rerun the post
root validator `validate_mapping_type` on the updated values dict, and
install the whole resulting dict. -/
def super_setattr (f : MappingFields) (a : FieldAssignment) : Except SetattrError MappingFields :=
  match assignmentError a with
  | some e => .error (.validationFailed e)
  | none => .ok (validate_mapping_type (applyAssignment f a))

/-- `UIMapping.__setattr__`: every assignment other than an
`input_combination` assignment with a registered callback goes straight
to `super().__setattr__`.  For `input_combination` with a callback: an
equal combination returns with no effect and no callback call;
otherwise the callback runs and only on its success is the field
written. -/
def uimapping_setattr (m : UIMState) (a : FieldAssignment) : Except SetattrError UIMState :=
  match a, m.combination_changed with
  | .input_combination v, some cb =>
    if v = m.fields.input_combination then .ok m
    else
      match cb v m.fields.input_combination with
      | .error e => .error (.callbackRaised e)
      | .ok _ => (super_setattr m.fields (.input_combination v)).map (fun g => ⟨g, some cb⟩)
  | a, _ => (super_setattr m.fields a).map (fun g => ⟨g, m.combination_changed⟩)

/-- The object state after an assignment attempt: the only mutation in
`__setattr__` is its final `super().__setattr__` call, so a raised
error leaves the instance exactly as it was. -/
def setattr_post (m : UIMState) (a : FieldAssignment) : UIMState :=
  match uimapping_setattr m a with
  | .ok s => s
  | .error _ => m

/-! ## Supporting lemmas -/

theorem dropWhile_rdropWhile_dropWhile {α : Type} (p : α → Bool) (l : List α) :
    ((l.dropWhile p).rdropWhile p).dropWhile p = (l.dropWhile p).rdropWhile p := by
  rw [List.dropWhile_eq_self_iff]
  intro hl
  have hpre : (l.dropWhile p).rdropWhile p <+: l.dropWhile p := List.rdropWhile_prefix p _
  have hlen : 0 < (l.dropWhile p).length := lt_of_lt_of_le hl hpre.length_le
  have hget : ((l.dropWhile p).rdropWhile p).get ⟨0, hl⟩ = (l.dropWhile p).get ⟨0, hlen⟩ := by
    simp only [List.get_eq_getElem]
    exact hpre.getElem hl
  rw [hget]
  exact List.dropWhile_get_zero_not p l hlen

/-- Python `strip` is idempotent. -/
theorem pyStrip_idem (s : String) : pyStrip (pyStrip s) = pyStrip s := by
  unfold pyStrip
  rw [show (String.mk ((s.data.dropWhile Char.isWhitespace).rdropWhile Char.isWhitespace)).data
      = (s.data.dropWhile Char.isWhitespace).rdropWhile Char.isWhitespace from rfl]
  rw [dropWhile_rdropWhile_dropWhile, List.rdropWhile_idempotent]

/-- A successful `validate_symbol` changes at most `output_symbol`. -/
theorem validate_symbol_shape (env : Env) (f g : MappingFields)
    (h : validate_symbol env f = .ok g) :
    g = { f with output_symbol := g.output_symbol } := by
  unfold validate_symbol at h
  dsimp only at h
  repeat' split at h
  all_goals first
    | (injection h with h; subst h; rfl)
    | (cases h)

/-- The net effect of `validate_mapping_type` on the `mapping_type`
field, as a single expression. -/
def mapping_type_recomputed (f : MappingFields) : Option MappingType :=
  if f.output_type ≠ some EV_KEY ∧ f.output_code.isSome = true ∧ optStrTruthy f.output_symbol = false
    then some MappingType.ANALOG
  else if f.output_type = none ∧ f.output_code = none ∧ optStrTruthy f.output_symbol = true
    then some MappingType.KEY_MACRO
  else if f.output_type = some EV_KEY then some MappingType.KEY_MACRO
  else f.mapping_type

/-- The three sequential overrides of `validate_mapping_type` have
mutually exclusive conditions, so they equal the single if-chain
`mapping_type_recomputed`, and no other field is touched. -/
theorem validate_mapping_type_char (f : MappingFields) :
    validate_mapping_type f = { f with mapping_type := mapping_type_recomputed f } := by
  unfold validate_mapping_type mapping_type_recomputed
  dsimp only
  split_ifs <;> first | rfl | (exfalso; simp_all)

theorem mapping_type_recomputed_stable (f : MappingFields) :
    mapping_type_recomputed { f with mapping_type := mapping_type_recomputed f }
      = mapping_type_recomputed f := by
  unfold mapping_type_recomputed
  dsimp only
  split_ifs <;> rfl

/-- `validate_mapping_type` is idempotent. -/
theorem validate_mapping_type_idem (f : MappingFields) :
    validate_mapping_type (validate_mapping_type f) = validate_mapping_type f := by
  rw [validate_mapping_type_char f, validate_mapping_type_char, mapping_type_recomputed_stable]

/-- `validate_symbol` is the identity when no symbol is set. -/
theorem validate_symbol_none (env : Env) (g : MappingFields)
    (h : g.output_symbol = none) : validate_symbol env g = .ok g := by
  unfold validate_symbol
  rw [h]

/-- `validate_symbol` accepts an already-stripped disable sentinel. -/
theorem validate_symbol_disable (env : Env) (g : MappingFields) (t : String)
    (hs : g.output_symbol = some t) (hne : t ≠ "") (hstrip : pyStrip t = t)
    (hdis : t = DISABLE_NAME) : validate_symbol env g = .ok g := by
  unfold validate_symbol
  rw [hs]
  dsimp only
  rw [if_neg hne, hstrip, if_pos hdis, ← hs]

/-- `validate_symbol` accepts an already-stripped, parseable macro. -/
theorem validate_symbol_macro_case (env : Env) (g : MappingFields) (t : String)
    (hs : g.output_symbol = some t) (hne : t ≠ "") (hstrip : pyStrip t = t)
    (hdis : t ≠ DISABLE_NAME) (hm : env.is_this_a_macro_fn t = true)
    (hp : env.parse_ok t = true) : validate_symbol env g = .ok g := by
  unfold validate_symbol
  rw [hs]
  dsimp only
  rw [if_neg hne, hstrip, if_neg hdis, if_pos hm, if_pos hp, ← hs]

/-- `validate_symbol` accepts an already-stripped plain symbol that the
layout resolves and the target (if any) can emit. -/
theorem validate_symbol_plain (env : Env) (g : MappingFields) (t : String) (c : Int)
    (hs : g.output_symbol = some t) (hne : t ≠ "") (hstrip : pyStrip t = t)
    (hdis : t ≠ DISABLE_NAME) (hm : env.is_this_a_macro_fn t = false)
    (hc : env.layout_get t = some c)
    (htg : g.target_uinput = none ∨
      ∃ tg, g.target_uinput = some tg ∧ env.can_default_uinput_emit tg EV_KEY c = true) :
    validate_symbol env g = .ok g := by
  unfold validate_symbol
  rw [hs]
  dsimp only
  rw [if_neg hne, hstrip, if_neg hdis, if_neg (by simp [hm]), hc]
  rcases htg with htg | ⟨tg, htg, hemit⟩
  · rw [htg]
    dsimp only
    rw [← hs, ← htg]
  · rw [htg]
    dsimp only
    rw [if_pos hemit, ← hs, ← htg]

/-- After a successful `validate_symbol`, re-running it on any field set
carrying the same (already normalized) symbol and the same target is
accepted and is the identity — provided the layout does not resolve the
empty symbol and the empty string is not a macro expression, which pins
down the modelled external collaborators on the empty string. -/
theorem validate_symbol_rerun (env : Env) (f g g' : MappingFields)
    (hget : env.layout_get ("") = none) (hmac : env.is_this_a_macro_fn ("") = false)
    (h : validate_symbol env f = .ok g)
    (hsym : g'.output_symbol = g.output_symbol)
    (htu : g'.target_uinput = f.target_uinput) :
    validate_symbol env g' = .ok g' := by
  unfold validate_symbol at h
  dsimp only at h
  rcases hfs : f.output_symbol with _ | s <;> rw [hfs] at h <;> dsimp only at h
  · injection h with h
    exact validate_symbol_none env g' (by rw [hsym, ← h, hfs])
  · by_cases hempty : s = ""
    · rw [if_pos hempty] at h
      injection h with h
      exact validate_symbol_none env g' (by rw [hsym, ← h])
    · rw [if_neg hempty] at h
      have hidem := pyStrip_idem s
      by_cases hdis : pyStrip s = DISABLE_NAME
      · rw [if_pos hdis] at h
        injection h with h
        have hgs : g'.output_symbol = some (pyStrip s) := by rw [hsym, ← h]
        refine validate_symbol_disable env g' (pyStrip s) hgs ?_ hidem hdis
        rw [hdis]
        decide
      · rw [if_neg hdis] at h
        by_cases hm : env.is_this_a_macro_fn (pyStrip s) = true
        · rw [if_pos hm] at h
          by_cases hp : env.parse_ok (pyStrip s) = true
          · rw [if_pos hp] at h
            injection h with h
            have hgs : g'.output_symbol = some (pyStrip s) := by rw [hsym, ← h]
            have hne : pyStrip s ≠ "" := fun he => by rw [he, hmac] at hm; exact absurd hm (by decide)
            exact validate_symbol_macro_case env g' (pyStrip s) hgs hne hidem hdis hm hp
          · rw [if_neg hp] at h
            cases h
        · rw [if_neg hm] at h
          rcases hc : env.layout_get (pyStrip s) with _ | code <;> rw [hc] at h <;> dsimp only at h
          · cases h
          · have hne : pyStrip s ≠ "" := fun he => by rw [he, hget] at hc; cases hc
            rcases htuf : f.target_uinput with _ | target <;> rw [htuf] at h <;> dsimp only at h
            · injection h with h
              have hgs : g'.output_symbol = some (pyStrip s) := by rw [hsym, ← h]
              refine validate_symbol_plain env g' (pyStrip s) code hgs hne hidem hdis
                (by simpa using hm) hc (Or.inl (by rw [htu, htuf]))
            · by_cases hemit : env.can_default_uinput_emit target EV_KEY code = true
              · rw [if_pos hemit] at h
                injection h with h
                have hgs : g'.output_symbol = some (pyStrip s) := by rw [hsym, ← h]
                refine validate_symbol_plain env g' (pyStrip s) code hgs hne hidem hdis
                  (by simpa using hm) hc (Or.inr ⟨target, by rw [htu, htuf], hemit⟩)
              · rw [if_neg hemit] at h
                cases h

/-! ## Concrete sample data for witnesses and counterexamples -/

/-- A concrete environment: the layout resolves `"a"` to code 30,
`"k(a)"` is a macro expression that parses, every target can emit
every code. -/
def sampleEnv : Env := {
  layout_get := fun s => if s = "a" then some 30 else none,
  is_this_a_macro_fn := fun s => s == "k(a)",
  parse_ok := fun _ => true,
  can_default_uinput_emit := fun _ _ _ => true }

/-- A baseline field set: one key input, keyboard target, symbol `"a"`,
defaults for everything else. -/
def sampleFields : MappingFields := {
  input_combination := ⟨[⟨EV_KEY, 30, none⟩]⟩,
  target_uinput := some ("keyboard"),
  output_symbol := some ("a"),
  output_type := none,
  output_code := none,
  name := none,
  mapping_type := none,
  release_combination_keys := true,
  macro_key_sleep_ms := 0,
  deadzone := 0,
  gain := 1,
  expo := 0,
  rel_rate := 60,
  rel_to_abs_input_cutoff := 2,
  release_timeout := 1,
  force_release_timeout := false }

/-! ## Claim C2 -/

/-- The `mapping_type` recomputation rule exactly as claim C2 words it:
`analog` whenever an explicit non-key output type is set and no output
symbol is set; `key_or_macro` whenever only a symbol is set (no
explicit type and no explicit code); `key_or_macro` whenever the
explicit type is the key event class; otherwise the prior value. -/
def claimed_mapping_type_C2 (f : MappingFields) : Option MappingType :=
  if f.output_type.isSome = true ∧ f.output_type ≠ some EV_KEY ∧ f.output_symbol = none
    then some MappingType.ANALOG
  else if f.output_symbol.isSome = true ∧ f.output_type = none ∧ f.output_code = none
    then some MappingType.KEY_MACRO
  else if f.output_type = some EV_KEY then some MappingType.KEY_MACRO
  else f.mapping_type

/-- C2 counterexample input: no explicit output type, an explicit
output code, no symbol, no previously computed mapping type. -/
def c2_fields : MappingFields :=
  { sampleFields with output_symbol := none, output_code := some 5 }

/-- C2 counterexample: with `output_type` unset, `output_code = 5` and
no symbol, the code's `output_type != EV_KEY` test passes (`None` is
not the key class) and `mapping_type` becomes `analog`, while the
claim's rule ("an explicit non-key output type is set") leaves it at
its prior value `none`. -/
theorem c2_counterexample :
    (validate_mapping_type c2_fields).mapping_type = some MappingType.ANALOG ∧
      claimed_mapping_type_C2 c2_fields = none ∧ c2_fields.mapping_type = none := by
  refine ⟨by rfl, by rfl, by rfl⟩

/-- C2 (amended): `mapping_type` becomes `analog` whenever the output
type is anything other than the key event class (set or unset), an
explicit output code is set, and no non-empty output symbol is set; it
becomes `key_or_macro` whenever a non-empty symbol is set with no
explicit type and no explicit code; it becomes `key_or_macro` whenever
the explicit type is the key event class; otherwise it is left at its
previously computed value (`mapping_type_recomputed` spells out exactly
this rule). -/
theorem c2_amended (f : MappingFields) :
    (validate_mapping_type f).mapping_type = mapping_type_recomputed f := by
  rw [validate_mapping_type_char]

/-! ## Claim C6 -/

/-- C6 failing input: an output symbol unknown to the keyboard layout,
no explicit output type or code. -/
def c6_fields : MappingFields :=
  { sampleFields with output_symbol := some ("nosuchsymbol") }

/-- C6: the docstring of `get_output_type_code` promises `None` for
unknown symbols, and the claim repeats it; but for an unknown non-macro
symbol the code returns the pair `(EV_KEY, None)` (the key event class
paired with the failed lookup), which is not `None`.  The known-symbol
and explicit-pair clauses do behave as claimed. -/
theorem c6_code_bug :
    get_output_type_code sampleEnv c6_fields = some (EV_KEY, none) ∧
      get_output_type_code sampleEnv c6_fields ≠ none ∧
      get_output_type_code sampleEnv sampleFields = some (EV_KEY, some 30) ∧
      get_output_type_code sampleEnv { sampleFields with output_type := some EV_REL, output_code := some 8 }
        = some (EV_REL, some 8) := by
  refine ⟨by rfl, by simp [get_output_type_code, sampleEnv, c6_fields, sampleFields], by rfl, by rfl⟩

/-! ## Claim C7 -/

/-- On success, a non-empty raw symbol always comes out stripped:
the write-back `values["output_symbol"] = symbol.strip()` happens
before every later symbol rule. -/
theorem validate_symbol_strips (env : Env) (f g : MappingFields) (t : String)
    (hfs : f.output_symbol = some t) (ht : t ≠ "")
    (h : validate_symbol env f = .ok g) : g.output_symbol = some (pyStrip t) := by
  unfold validate_symbol at h
  dsimp only at h
  rw [hfs] at h
  dsimp only at h
  rw [if_neg ht] at h
  repeat' split at h
  all_goals first
    | (injection h with h; rw [← h])
    | (cases h)

/-- A whitespace-only (non-empty) symbol survives the `== ""` check,
is stripped to `""`, and then fails resolution with the unknown-symbol
error for the empty string. -/
theorem whitespace_symbol_fails (env : Env) (f : MappingFields) (s : String)
    (hget : env.layout_get ("") = none) (hmac : env.is_this_a_macro_fn ("") = false)
    (hs : s ≠ "") (hws : pyStrip s = "") (hfs : f.output_symbol = some s) :
    mapping_construct env f = .error [VErr.outputSymbolUnknown ("")] := by
  have hsym : validate_symbol env f = .error (.outputSymbolUnknown ("")) := by
    unfold validate_symbol
    rw [hfs]
    dsimp only
    rw [if_neg hs, hws, if_neg (by decide : ("" : String) ≠ DISABLE_NAME),
      if_neg (by simp [hmac]), hget]
  unfold mapping_construct
  rw [hsym]

/-- C7: as stated the claim is false — the empty-string check runs on
the raw value before trimming, so a whitespace-only symbol is trimmed
to `""` afterwards and construction fails with the unknown-symbol error
for `""` instead of treating the symbol as absent. -/
theorem c7_counterexample :
    mapping_construct sampleEnv { sampleFields with output_symbol := some (" ") }
      = .error [VErr.outputSymbolUnknown ("")] := by
  refine whitespace_symbol_fails sampleEnv _ (" ") (by rfl) (by rfl) (by decide) (by decide) (by rfl)

/-- C7 (amended): an exactly-empty output symbol is treated as no
symbol; any other symbol is trimmed before the remaining symbol rules
are applied (a successful construction always carries the stripped
symbol); consequently a whitespace-only symbol is trimmed to the empty
string and construction fails with the unknown-symbol error for `""`
(the layout does not resolve `""`, `""` is not a macro), rather than
being treated as an absent symbol. -/
theorem c7_amended (env : Env) (f : MappingFields) (s : String)
    (hget : env.layout_get ("") = none) (hmac : env.is_this_a_macro_fn ("") = false)
    (hs : s ≠ "") (hws : pyStrip s = "") :
    validate_symbol env { f with output_symbol := some ("") }
        = .ok { f with output_symbol := none } ∧
      (∀ t g, t ≠ "" → validate_symbol env { f with output_symbol := some t } = .ok g →
        g.output_symbol = some (pyStrip t)) ∧
      mapping_construct env { f with output_symbol := some s }
        = .error [VErr.outputSymbolUnknown ("")] := by
  refine ⟨?_, ?_, ?_⟩
  · unfold validate_symbol
    dsimp only
    rw [if_pos rfl]
  · intro t g ht h
    exact validate_symbol_strips env _ g t (by rfl) ht h
  · exact whitespace_symbol_fails env _ s hget hmac hs hws (by rfl)

/-- C7 witness: the amended behaviour at the concrete whitespace symbol
`" "` in the sample environment. -/
theorem c7_witness :
    validate_symbol sampleEnv { sampleFields with output_symbol := some ("") }
        = .ok { sampleFields with output_symbol := none } ∧
      mapping_construct sampleEnv { sampleFields with output_symbol := some ("\t") }
        = .error [VErr.outputSymbolUnknown ("")] :=
  ⟨(c7_amended sampleEnv sampleFields ("\t") (by rfl) (by rfl) (by decide) (by decide)).1,
    (c7_amended sampleEnv sampleFields ("\t") (by rfl) (by rfl) (by decide) (by decide)).2.2⟩

/-! ## Claims C1, C9, C10 -/

/-- A callback that rejects every combination change. -/
def rejecting_cb : CombinationChangedCallback := fun _ _ => .error ("already mapped")

/-- `validate_mapping_type` never touches `input_combination`. -/
theorem validate_mapping_type_input_combination (f : MappingFields) :
    (validate_mapping_type f).input_combination = f.input_combination := by
  rw [validate_mapping_type_char]

/-- Non-`input_combination` assignments never touch `input_combination`. -/
theorem applyAssignment_input_combination (f : MappingFields) (a : FieldAssignment)
    (h : a.isInputCombination = false) :
    (applyAssignment f a).input_combination = f.input_combination := by
  cases a <;> first | rfl | (simp [FieldAssignment.isInputCombination] at h)

/-- For non-`input_combination` assignments, `__setattr__` is
`super().__setattr__` with the callback slot carried along untouched. -/
theorem uimapping_setattr_other (f : MappingFields) (c : Option CombinationChangedCallback)
    (a : FieldAssignment) (h : a.isInputCombination = false) :
    uimapping_setattr ⟨f, c⟩ a = (super_setattr f a).map (fun g => ⟨g, c⟩) := by
  cases a <;> first | rfl | (simp [FieldAssignment.isInputCombination] at h)

/-- C1: with a combination-changed callback registered, when assigning
a different combination makes the callback raise, the assignment
propagates exactly the callback's error and the instance — in
particular its `input_combination` field — is left exactly as it was:
the field write only happens after the callback returns. -/
theorem c1_callback_rejection (f : MappingFields) (cb : CombinationChangedCallback)
    (v : InputCombination) (e : String)
    (hne : v ≠ f.input_combination)
    (hcb : cb v f.input_combination = .error e) :
    uimapping_setattr ⟨f, some cb⟩ (.input_combination v) = .error (.callbackRaised e) ∧
      setattr_post ⟨f, some cb⟩ (.input_combination v) = ⟨f, some cb⟩ := by
  have h1 : uimapping_setattr ⟨f, some cb⟩ (.input_combination v)
      = .error (.callbackRaised e) := by
    unfold uimapping_setattr
    dsimp only
    rw [if_neg hne, hcb]
  refine ⟨h1, ?_⟩
  unfold setattr_post
  rw [h1]

/-- C1 witness: a concrete rejected assignment. -/
theorem c1_witness :
    uimapping_setattr ⟨sampleFields, some rejecting_cb⟩
        (.input_combination ⟨[⟨EV_KEY, 31, none⟩]⟩)
        = .error (.callbackRaised ("already mapped")) ∧
      setattr_post ⟨sampleFields, some rejecting_cb⟩
        (.input_combination ⟨[⟨EV_KEY, 31, none⟩]⟩) = ⟨sampleFields, some rejecting_cb⟩ :=
  c1_callback_rejection sampleFields rejecting_cb ⟨[⟨EV_KEY, 31, none⟩]⟩ ("already mapped")
    (by decide) (by rfl)

/-- C9: with a callback registered, assigning the current combination
returns before the callback is consulted: for every callback the result
is success with the instance unchanged. -/
theorem c9_noop_assignment (f : MappingFields) (cb : CombinationChangedCallback) :
    uimapping_setattr ⟨f, some cb⟩ (.input_combination f.input_combination)
      = .ok ⟨f, some cb⟩ := by
  unfold uimapping_setattr
  dsimp only
  rw [if_pos rfl]

/-- C10 (frame): assigning any field other than `input_combination`
never invokes the registered callback — the outcome is the outcome of
the callback-free assignment, with the callback slot carried along —
and a successful assignment leaves `input_combination` unchanged and
the callback installed. -/
theorem c10_frame (f : MappingFields) (cb : CombinationChangedCallback) (a : FieldAssignment)
    (hni : a.isInputCombination = false) :
    uimapping_setattr ⟨f, some cb⟩ a
        = (uimapping_setattr ⟨f, none⟩ a).map (fun s => ⟨s.fields, some cb⟩) ∧
      ∀ s, uimapping_setattr ⟨f, some cb⟩ a = .ok s →
        s.fields.input_combination = f.input_combination ∧ s.combination_changed = some cb := by
  constructor
  · rw [uimapping_setattr_other f (some cb) a hni, uimapping_setattr_other f none a hni]
    cases super_setattr f a <;> rfl
  · intro s h
    rw [uimapping_setattr_other f (some cb) a hni] at h
    rcases hsup : super_setattr f a with e | g <;> rw [hsup] at h
    · cases h
    · injection h with h
      subst h
      refine ⟨?_, rfl⟩
      unfold super_setattr at hsup
      rcases hae : assignmentError a with _ | e <;> rw [hae] at hsup
      · injection hsup with hsup
        rw [← hsup, validate_mapping_type_input_combination,
          applyAssignment_input_combination f a hni]
      · cases hsup

/-- C10 witness: a concrete `name` assignment with a rejecting callback
installed behaves exactly like the callback-free assignment and keeps
the combination. -/
theorem c10_witness :
    uimapping_setattr ⟨sampleFields, some rejecting_cb⟩ (.name (some ("x")))
        = (uimapping_setattr ⟨sampleFields, none⟩ (.name (some ("x")))).map
            (fun s => ⟨s.fields, some rejecting_cb⟩) ∧
      (⟨validate_mapping_type (applyAssignment sampleFields (.name (some ("x")))),
          some rejecting_cb⟩ : UIMState).fields.input_combination
        = sampleFields.input_combination :=
  ⟨(c10_frame sampleFields rejecting_cb (.name (some ("x"))) rfl).1,
    ((c10_frame sampleFields rejecting_cb (.name (some ("x"))) rfl).2 _ rfl).1⟩

/-! ## Claim C8 -/

/-- `validate_mapping_type` never touches the three output fields. -/
theorem validate_mapping_type_outputs (f : MappingFields) :
    (validate_mapping_type f).output_symbol = f.output_symbol ∧
      (validate_mapping_type f).output_type = f.output_type ∧
      (validate_mapping_type f).output_code = f.output_code := by
  rw [validate_mapping_type_char]
  exact ⟨rfl, rfl, rfl⟩

/-- `validate_symbol` accepts a non-empty symbol whose stripped form is
a parseable macro (or the disable sentinel), and stores the stripped
form. -/
theorem validate_symbol_macro_accept_ok (env : Env) (f : MappingFields) (s : String)
    (hfs : f.output_symbol = some s) (hs : s ≠ "")
    (hm : env.is_this_a_macro_fn (pyStrip s) = true) (hp : env.parse_ok (pyStrip s) = true) :
    validate_symbol env f = .ok { f with output_symbol := some (pyStrip s) } := by
  unfold validate_symbol
  rw [hfs]
  dsimp only
  rw [if_neg hs]
  by_cases hdis : pyStrip s = DISABLE_NAME
  · rw [if_pos hdis]
  · rw [if_neg hdis, if_pos hm, if_pos hp]

/-- `validate_output_integrity` raises the conflicting-output-form
error whenever the symbol is a macro and type or code is set. -/
theorem validate_output_integrity_macro_err (env : Env) (g : MappingFields) (t : String)
    (hgs : g.output_symbol = some t) (hm : env.is_this_a_macro_fn t = true)
    (hset : g.output_type ≠ none ∨ g.output_code ≠ none) :
    validate_output_integrity env g = .error .macroButTypeOrCodeSet := by
  unfold validate_output_integrity
  rw [hgs]
  dsimp only
  have hnc : ¬(g.output_type = none ∧ g.output_code = none) := by
    intro hc
    rcases hset with h | h
    · exact h hc.1
    · exact h hc.2
  rw [if_neg hnc, if_pos ⟨hm, hset⟩]

/-- C8: a field set whose output symbol is a syntactically valid macro
expression and which also sets the explicit output type or code always
fails construction, with the conflicting-output-form
(`MacroButTypeOrCodeSet`) error among the reported errors. -/
theorem c8_macro_with_type_or_code (env : Env) (f : MappingFields) (s : String)
    (hfs : f.output_symbol = some s) (hs : s ≠ "")
    (hm : env.is_this_a_macro_fn (pyStrip s) = true) (hp : env.parse_ok (pyStrip s) = true)
    (hset : f.output_type ≠ none ∨ f.output_code ≠ none) :
    ∃ errs, mapping_construct env f = .error errs ∧ VErr.macroButTypeOrCodeSet ∈ errs := by
  have hok := validate_symbol_macro_accept_ok env f s hfs hs hm hp
  have houts := validate_mapping_type_outputs { f with output_symbol := some (pyStrip s) }
  have hint : validate_output_integrity env
      (validate_mapping_type { f with output_symbol := some (pyStrip s) })
      = .error .macroButTypeOrCodeSet := by
    refine validate_output_integrity_macro_err env _ (pyStrip s) (by rw [houts.1]) hm ?_
    rw [houts.2.1, houts.2.2]
    exact hset
  have hvar : validate_output_symbol_variant
      (validate_mapping_type { f with output_symbol := some (pyStrip s) }) = .ok () := by
    unfold validate_output_symbol_variant
    rw [if_neg (fun hc => by rw [houts.1] at hc; cases hc.1)]
  have hpost : ∀ b, post_root_errors env { f with output_symbol := some (pyStrip s) } b
      = (validate_mapping_type { f with output_symbol := some (pyStrip s) },
        [VErr.macroButTypeOrCodeSet]) := by
    intro b
    unfold post_root_errors
    dsimp only
    rw [hvar, hint]
  unfold mapping_construct
  rw [hok]
  dsimp only
  rw [hpost]
  dsimp only
  split
  next heq => exact absurd heq (by simp)
  next => exact ⟨_, rfl, by simp only [List.mem_append]; exact Or.inr (by simp)⟩

/-- C8 witness: macro symbol `"k(a)"` with explicit type and code. -/
theorem c8_witness :
    ∃ errs, mapping_construct sampleEnv
        { sampleFields with
          output_symbol := some ("k(a)"),
          output_type := some EV_KEY,
          output_code := some 30 } = .error errs ∧
      VErr.macroButTypeOrCodeSet ∈ errs :=
  c8_macro_with_type_or_code sampleEnv _ ("k(a)") (by rfl) (by decide) (by rfl) (by rfl)
    (Or.inl (by decide))

/-! ## Claims C3 and C4 -/

/-- A successful `validate_symbol` preserves the input combination. -/
theorem validate_symbol_combination (env : Env) (f g : MappingFields)
    (h : validate_symbol env f = .ok g) :
    g.input_combination = f.input_combination := by
  rw [validate_symbol_shape env f g h]

/-- If the combination's own field validators fail on every surviving
field set, construction fails. -/
theorem mapping_construct_fails_of_bad_combination (env : Env) (f : MappingFields)
    (h : ∀ g, validate_symbol env f = .ok g →
      combination_field_errors g.input_combination ≠ []) :
    ∃ errs, mapping_construct env f = .error errs := by
  unfold mapping_construct
  rcases hv : validate_symbol env f with e | g
  · exact ⟨[e], rfl⟩
  · dsimp only
    split
    next heq =>
      exfalso
      simp only [List.append_eq_nil] at heq
      exact h g hv heq.1.1.1
    next => exact ⟨_, rfl⟩

/-- When the pre root symbol validator passes, every error raised by
the combination's field validators is reported. -/
theorem mapping_construct_combination_errors (env : Env) (f g : MappingFields)
    (h : validate_symbol env f = .ok g) (e : VErr)
    (he : e ∈ combination_field_errors g.input_combination) :
    ∃ errs, mapping_construct env f = .error errs ∧ e ∈ errs := by
  unfold mapping_construct
  rw [h]
  dsimp only
  split
  next heq =>
    exfalso
    simp only [List.append_eq_nil] at heq
    exact List.ne_nil_of_mem he heq.1.1.1
  next =>
    refine ⟨_, rfl, ?_⟩
    simp only [List.mem_append]
    exact Or.inl (Or.inl (Or.inl he))

/-- With more than one analog-defining constituent, the first
combination validator raises the multiple-analog-inputs error carrying
all analog-defining constituents. -/
theorem combination_field_errors_multi (c : InputCombination)
    (h : 1 < (c.events.filter (fun e => e.defines_analog_input)).length) :
    combination_field_errors c
      = [.onlyOneAnalogInput (c.events.filter (fun e => e.defines_analog_input))] := by
  unfold combination_field_errors only_one_analog_input
  dsimp only
  rw [if_pos h]

/-- With at most one analog-defining constituent and an out-of-range
trigger constituent, the second combination validator raises the
out-of-range error carrying the first offender. -/
theorem combination_field_errors_trigger (c : InputCombination)
    (hlen : ¬1 < (c.events.filter (fun e => e.defines_analog_input)).length)
    (e : InputConfig) (he : c.events.find? trigger_out_of_range = some e) :
    combination_field_errors c = [.triggerPointInRange e] := by
  unfold combination_field_errors only_one_analog_input trigger_point_in_range
  dsimp only
  rw [if_neg hlen]
  dsimp only
  rw [he]

/-- C3 (amended): a combination containing an `EV_ABS` constituent with
a truthy trigger threshold of magnitude at least 100 never constructs;
and the failure carries the out-of-range (`TriggerPointInRange`) error
with an offending constituent whenever the symbol's pre-validation does
not abort construction first and the combination passes the preceding
at-most-one-analog-input validator. -/
theorem c3_trigger_out_of_range (env : Env) (f : MappingFields)
    (h : ∃ e ∈ f.input_combination.events, trigger_out_of_range e = true) :
    (∃ errs, mapping_construct env f = .error errs) ∧
      (¬1 < (f.input_combination.events.filter (fun e => e.defines_analog_input)).length →
        ∀ g, validate_symbol env f = .ok g →
          ∃ cfg errs, mapping_construct env f = .error errs ∧
            VErr.triggerPointInRange cfg ∈ errs ∧ trigger_out_of_range cfg = true) := by
  have hfind : (f.input_combination.events.find? trigger_out_of_range).isSome := by
    rw [List.find?_isSome]
    exact h
  rcases hfs : f.input_combination.events.find? trigger_out_of_range with _ | cfg
  · rw [hfs] at hfind
    cases hfind
  constructor
  · refine mapping_construct_fails_of_bad_combination env f (fun g hg => ?_)
    rw [validate_symbol_combination env f g hg]
    by_cases hlen : 1 < (f.input_combination.events.filter (fun e => e.defines_analog_input)).length
    · rw [combination_field_errors_multi _ hlen]
      exact List.cons_ne_nil _ _
    · rw [combination_field_errors_trigger _ hlen cfg hfs]
      exact List.cons_ne_nil _ _
  · intro hlen g hg
    refine ⟨cfg, ?_⟩
    have he : VErr.triggerPointInRange cfg ∈ combination_field_errors g.input_combination := by
      rw [validate_symbol_combination env f g hg,
        combination_field_errors_trigger _ hlen cfg hfs]
      exact List.mem_singleton_self _
    rcases mapping_construct_combination_errors env f g hg _ he with ⟨errs, h1, h2⟩
    exact ⟨errs, h1, h2, List.find?_some hfs⟩

/-- C4 (amended): a combination with two or more analog-defining
constituents never constructs; and the failure carries the
multiple-analog-inputs (`OnlyOneAnalogInput`) error with the
analog-defining constituents whenever the symbol's pre-validation does
not abort construction first. -/
theorem c4_multiple_analog (env : Env) (f : MappingFields)
    (h : 1 < (f.input_combination.events.filter (fun e => e.defines_analog_input)).length) :
    (∃ errs, mapping_construct env f = .error errs) ∧
      ∀ g, validate_symbol env f = .ok g →
        ∃ errs, mapping_construct env f = .error errs ∧
          VErr.onlyOneAnalogInput
            (f.input_combination.events.filter (fun e => e.defines_analog_input)) ∈ errs := by
  constructor
  · refine mapping_construct_fails_of_bad_combination env f (fun g hg => ?_)
    rw [validate_symbol_combination env f g hg, combination_field_errors_multi _ h]
    exact List.cons_ne_nil _ _
  · intro g hg
    refine mapping_construct_combination_errors env f g hg _ ?_
    rw [validate_symbol_combination env f g hg, combination_field_errors_multi _ h]
    exact List.mem_singleton_self _

/-- Whether an error is the multiple-analog-inputs error. -/
def VErr.is_only_one_analog_error : VErr → Bool
  | .onlyOneAnalogInput _ => true
  | _ => false

/-- Whether an error is the out-of-range trigger error. -/
def VErr.is_trigger_range_error : VErr → Bool
  | .triggerPointInRange _ => true
  | _ => false

/-- C3 counterexample input: an `EV_ABS` constituent with threshold 100
together with an output symbol the layout does not know. -/
def c3_fields : MappingFields :=
  { sampleFields with
    input_combination := ⟨[⟨EV_ABS, 0, some 100⟩]⟩,
    output_symbol := some ("zz") }

/-- C3 counterexample: the claim promises the out-of-range error
"regardless of the other fields", but with an unknown output symbol the
pre root symbol validator aborts construction first and the only
reported error is the unknown-symbol error — no out-of-range error is
carried. -/
theorem c3_counterexample :
    mapping_construct sampleEnv c3_fields = .error [VErr.outputSymbolUnknown ("zz")] ∧
      trigger_out_of_range ⟨EV_ABS, 0, some 100⟩ = true ∧
      ([VErr.outputSymbolUnknown ("zz")].all (fun e => !e.is_trigger_range_error)) = true := by
  refine ⟨by rfl, by rfl, by rfl⟩

/-- C3 witness input: the same out-of-range constituent with a
resolvable symbol. -/
def c3_witness_fields : MappingFields :=
  { sampleFields with input_combination := ⟨[⟨EV_ABS, 0, some 100⟩]⟩ }

/-- C3 witness: at the concrete out-of-range input, construction fails
and reports the out-of-range error with the offending constituent. -/
theorem c3_witness :
    ∃ cfg errs, mapping_construct sampleEnv c3_witness_fields = .error errs ∧
      VErr.triggerPointInRange cfg ∈ errs ∧ trigger_out_of_range cfg = true :=
  (c3_trigger_out_of_range sampleEnv c3_witness_fields
      ⟨⟨EV_ABS, 0, some 100⟩, by decide, by rfl⟩).2 (by decide) _ (by rfl)

/-- C4 counterexample input: two analog-defining constituents together
with an output symbol the layout does not know. -/
def c4_fields : MappingFields :=
  { sampleFields with
    input_combination := ⟨[⟨EV_ABS, 0, none⟩, ⟨EV_REL, 1, none⟩]⟩,
    output_symbol := some ("zz") }

/-- C4 counterexample: the claim promises the multiple-analog-inputs
error "regardless of the output fields", but with an unknown output
symbol the pre root symbol validator aborts construction first and the
only reported error is the unknown-symbol error. -/
theorem c4_counterexample :
    mapping_construct sampleEnv c4_fields = .error [VErr.outputSymbolUnknown ("zz")] ∧
      1 < (c4_fields.input_combination.events.filter
        (fun e => e.defines_analog_input)).length ∧
      ([VErr.outputSymbolUnknown ("zz")].all (fun e => !e.is_only_one_analog_error)) = true := by
  refine ⟨by rfl, by decide, by rfl⟩

/-- C4 witness input: two analog-defining constituents with a
resolvable symbol. -/
def c4_witness_fields : MappingFields :=
  { sampleFields with input_combination := ⟨[⟨EV_ABS, 0, none⟩, ⟨EV_REL, 1, none⟩]⟩ }

/-- C4 witness: at the concrete two-analog input, construction fails
and reports the multiple-analog-inputs error with both constituents. -/
theorem c4_witness :
    ∃ errs, mapping_construct sampleEnv c4_witness_fields = .error errs ∧
      VErr.onlyOneAnalogInput
        (c4_witness_fields.input_combination.events.filter
          (fun e => e.defines_analog_input)) ∈ errs :=
  (c4_multiple_analog sampleEnv c4_witness_fields (by decide)).2 _ (by rfl)

/-! ## Claim C5 -/

/-- The values produced by the post root validators are always those of
`validate_mapping_type` (the later validators only check). -/
theorem post_root_errors_fst (env : Env) (g : MappingFields) (b : Bool) :
    (post_root_errors env g b).1 = validate_mapping_type g := by
  unfold post_root_errors
  dsimp only
  repeat' split
  all_goals rfl

/-- `post_root_errors` only looks at its input through
`validate_mapping_type`. -/
theorem post_root_errors_congr (env : Env) (x y : MappingFields) (b : Bool)
    (hxy : validate_mapping_type x = validate_mapping_type y) :
    post_root_errors env x b = post_root_errors env y b := by
  unfold post_root_errors
  rw [hxy]

/-- A successful `validate_symbol` preserves the target. -/
theorem validate_symbol_target (env : Env) (f g : MappingFields)
    (h : validate_symbol env f = .ok g) : g.target_uinput = f.target_uinput := by
  rw [validate_symbol_shape env f g h]

/-- C5: for every successfully constructed validated `Mapping`,
producing the broadcast snapshot (`get_bus_message`, i.e. building a
`MappingData`/`UIMapping` from the validated field values) succeeds and
is field-equal to the validated mapping, and re-validating those field
values (`Mapping(**v.dict())`) succeeds with a field-equal result.  The
two environment hypotheses pin the modelled external collaborators on
the empty string (the layout does not resolve `""`; `""` is not a macro
expression). -/
theorem c5_roundtrip (env : Env) (f v : MappingFields)
    (hget : env.layout_get ("") = none) (hmac : env.is_this_a_macro_fn ("") = false)
    (h : mapping_construct env f = .ok v) :
    get_bus_message v = .ok v ∧ mapping_construct env v = .ok v := by
  unfold mapping_construct at h
  rcases hv : validate_symbol env f with e | g <;> rw [hv] at h
  · cases h
  · dsimp only at h
    split at h
    case isFalse => cases h
    case isTrue heq =>
    injection h with h
    have hfst := post_root_errors_fst env g
      (combination_field_errors g.input_combination).isEmpty
    have hvg : v = validate_mapping_type g := by rw [← h, hfst]
    simp only [List.append_eq_nil] at heq
    obtain ⟨⟨⟨hcomb, htgt⟩, hnum⟩, hpost⟩ := heq
    have hvchar : v = { g with mapping_type := mapping_type_recomputed g } := by
      rw [hvg, validate_mapping_type_char]
    have hvmtv : validate_mapping_type v = v := by
      rw [hvg, validate_mapping_type_idem]
    have hnv : numeric_field_errors v = [] := by
      rw [hvchar]
      exact hnum
    have hui : uimapping_construct v = .ok v := by
      unfold uimapping_construct
      rw [if_pos hnv, hvmtv]
    refine ⟨hui, ?_⟩
    have hsym2 : validate_symbol env v = .ok v := by
      refine validate_symbol_rerun env f g v hget hmac hv ?_ ?_
      · rw [hvchar]
      · rw [hvchar]
        exact validate_symbol_target env f g hv
    have hvcomb : v.input_combination = g.input_combination := by rw [hvchar]
    have hvtgt : v.target_uinput = g.target_uinput := by rw [hvchar]
    have hcongr : validate_mapping_type v = validate_mapping_type g := by
      rw [hvmtv, hvg]
    have hpost2 : (post_root_errors env v
        (combination_field_errors g.input_combination).isEmpty).2 = [] := by
      rw [post_root_errors_congr env v g _ hcongr]
      exact hpost
    unfold mapping_construct
    rw [hsym2]
    dsimp only
    have hall : combination_field_errors v.input_combination
        ++ target_field_errors v.target_uinput ++ numeric_field_errors v
        ++ (post_root_errors env v
          (combination_field_errors v.input_combination).isEmpty).2 = [] := by
      rw [hvcomb, hvtgt, hpost2, hcomb, htgt, hnv]
      rfl
    rw [if_pos hall, post_root_errors_fst, hvmtv]

/-- The validated field set that `sampleFields` constructs to. -/
def c5_valid_fields : MappingFields :=
  { sampleFields with mapping_type := some MappingType.KEY_MACRO }

/-- C5 witness: the sample mapping constructs, and its snapshot
round-trips to the same field values. -/
theorem c5_witness :
    get_bus_message c5_valid_fields = .ok c5_valid_fields ∧
      mapping_construct sampleEnv c5_valid_fields = .ok c5_valid_fields :=
  c5_roundtrip sampleEnv sampleFields c5_valid_fields (by rfl) (by rfl) (by rfl)
